import Mathlib

/-!
Shallow embedding of `src/civic_data_server/tools/run_python.py` (the
`run_python` tool): script preparation, process execution with timeout,
stdout demultiplexing of the `__MCP_PLOTS__=` sentinel line, artifact
persistence to disk, markdown composition, and the final result dict.

Python strings are modelled as Lean `String` (sequences of unicode code
points, matching Python's `str`); effects of the outside world (the child
process, the filesystem, uuid generation, path normalisation) are supplied
by a `World` record so that `run_python`'s control flow is a pure function
of its arguments and the world.
-/

namespace RunPy

/-- Characters Python's `str.splitlines` treats as line boundaries. -/
def isLineBreakChar (c : Char) : Bool :=
  c = '\n' || c = '\r' || c = '\x0b' || c = '\x0c' ||
  c = '\x1c' || c = '\x1d' || c = '\x1e' || c = '\x85' ||
  c = ' ' || c = ' '

/-- Worker for `pySplitlines`: `acc` holds the current line, reversed. -/
def splitlinesAux : List Char → List Char → List String
  | [], acc => if acc.isEmpty then [] else [⟨acc.reverse⟩]
  | '\r' :: '\n' :: rest, acc => ⟨acc.reverse⟩ :: splitlinesAux rest []
  | c :: rest, acc =>
    if isLineBreakChar c then ⟨acc.reverse⟩ :: splitlinesAux rest []
    else splitlinesAux rest (c :: acc)

/-- Python `str.splitlines()` (no terminators kept, trailing break emits no
empty final line). -/
def pySplitlines (s : String) : List String :=
  splitlinesAux s.data []

/-- Test that `xs` begins with `pre` (Python `str.startswith` on code-point lists). -/
def isPrefixL : List Char → List Char → Bool
  | [], _ => true
  | _ :: _, [] => false
  | a :: as, b :: bs => a = b && isPrefixL as bs

/-- Test that `needle` occurs contiguously in `hay` (Python `in` on strings). -/
def containsL (needle : List Char) : List Char → Bool
  | [] => needle.isEmpty
  | c :: rest => isPrefixL needle (c :: rest) || containsL needle rest

/-- Python `line.startswith(pre)`. -/
def pyStartsWith (pre s : String) : Bool := isPrefixL pre.data s.data

/-- Python `needle in hay` for strings. -/
def pyContains (needle hay : String) : Bool := containsL needle.data hay.data

/-- Whitespace for Python's default `str.strip` / `str.rstrip`. -/
def pyIsSpace (c : Char) : Bool :=
  c = ' ' || c = '\t' || c = '\n' || c = '\r' || c = '\x0b' || c = '\x0c' ||
  c = '\x1c' || c = '\x1d' || c = '\x1e' || c = '\x85' || c = '\xa0' ||
  c = ' ' || (' ' ≤ c && c ≤ ' ') || c = ' ' ||
  c = ' ' || c = ' ' || c = ' ' || c = '　'

/-- Python `s.rstrip()`. -/
def pyRstrip (s : String) : String :=
  ⟨(s.data.reverse.dropWhile pyIsSpace).reverse⟩

/-- Python `s.strip()`. -/
def pyStrip (s : String) : String :=
  ⟨((s.data.dropWhile pyIsSpace).reverse.dropWhile pyIsSpace).reverse⟩

/-- Python `s.rstrip('/')` as used on the base URL. -/
def rstripSlash (s : String) : String :=
  ⟨(s.data.reverse.dropWhile (· = '/')).reverse⟩

/-- Truthiness of an optional string (Python: missing key, `None` and `""`
are falsy). -/
def truthy : Option String → Bool
  | some s => !s.isEmpty
  | none => false

/-- One entry of the decoded `__MCP_PLOTS__=` manifest: a Python dict with
keys `type`, `data`, `title`, and — added by the persister / composer —
`url` and `markdown`.  `none` models both an absent key and a `None`
value (they behave identically under `.get` truthiness in this code). -/
structure Plot where
  type : Option String := none
  data : Option String := none
  title : Option String := none
  url : Option String := none
  markdown : Option String := none
deriving DecidableEq, Repr

/-- The sentinel token prefixing the manifest line (`marker` in the code). -/
def marker : String := "__MCP_PLOTS__="

/-- The environment variable toggling the child's debug logging. -/
def debugEnvKey : String := "MCP_RUN_PY_DEBUG"

/-- Python `env[k] = v` on a string-keyed map. -/
def envSet (m : String → Option String) (k v : String) : String → Option String :=
  fun k2 => if k2 = k then some v else m k2

/-- Python `env.pop(k, None)` on a string-keyed map. -/
def envPop (m : String → Option String) (k : String) : String → Option String :=
  fun k2 => if k2 = k then none else m k2

/-- Lines 198-202: `env = os.environ.copy()`, then set `MCP_RUN_PY_DEBUG`
to `"1"` when `debug` is true, else pop it from the copy. -/
def childEnv (debug : Bool) (parent : String → Option String) :
    String → Option String :=
  let env := parent
  if debug then envSet env debugEnvKey ("1") else envPop env debugEnvKey

/-- The environment step as a pair (parent environment after the call,
child environment): `os.environ.copy()` means the mutations touch only
the copy, so the parent map is returned unchanged. -/
def setupEnv (debug : Bool) (parent : String → Option String) :
    (String → Option String) × (String → Option String) :=
  (parent, childEnv debug parent)

/-- Lines 89-94: `int(timeout_seconds)` (identity on an int), then
non-positive values are coerced to the default 60. -/
def coerceTimeout (t : Int) : Int := if t ≤ 0 then 60 else t

/-- External effects of one invocation, supplied as an oracle so that the
tool's control flow is a pure function.  `writeOk i` abstracts whether the
whole per-plot `try` body (data-URL split, base64 decode, `open`/`write`,
`chmod`) succeeds for the plot at index `i`; `uuidHex i` is the
`uuid.uuid4().hex` drawn for that plot; `normalizePath` is
`os.path.abspath`; `dirReady` is the combined outcome of `os.makedirs` and
`os.access(image_path, os.W_OK)`. -/
structure World where
  spawnOk : Bool
  timedOut : Bool
  stdoutText : String
  stderrText : String
  returncode : Int
  parentEnv : String → Option String
  decodeJson : String → Option (List Plot)
  dirReady : Bool
  writeOk : Nat → Bool
  uuidHex : Nat → String
  normalizePath : String → String
  unlinkOk : Bool
  baseUrl : String
  publicPlotDir : String

/-- Arguments of the `run_python` tool (the `code` text itself does not
influence the model's observables: the child's streams come from the
`World`). -/
structure RunPyArgs where
  code : String := ""
  timeoutSeconds : Int := 60
  capturePlots : Bool := true
  returnMarkdown : Bool := true
  saveImages : Bool := true
  imagePath : String := ""
  debug : Bool := false

/-- Output of the stdout demultiplexer (lines 229-244). -/
structure DemuxOut where
  stdout : String
  plots : List Plot
  markerFound : Bool
deriving DecidableEq

/-- One loop iteration of lines 236-243: a sentinel-prefixed line replaces
the held plot list (empty on decode failure) and is dropped from the
remaining lines; any other line is appended to the remaining lines. -/
def demuxStep (decode : String → Option (List Plot)) (st : List Plot × List String)
    (line : String) : List Plot × List String :=
  if pyStartsWith marker line then
    ((decode ⟨line.data.drop marker.data.length⟩).getD [], st.2)
  else (st.1, st.2 ++ [line])

/-- Lines 229-244: `marker_found = marker in stdout_text`; when found, scan
`stdout_text.splitlines()` accumulating plots and remaining lines, then
rejoin with `"\n"`; when not found, stdout is left exactly as decoded and
the plot list stays empty. -/
def demux (decode : String → Option (List Plot)) (text : String) : DemuxOut :=
  if pyContains marker text then
    let st := (pySplitlines text).foldl (demuxStep decode) ([], [])
    { stdout := String.intercalate ("\n") st.2, plots := st.1, markerFound := true }
  else
    { stdout := text, plots := [], markerFound := false }

/-- Spec-side description of the demultiplexer's plot accumulator: scan the
lines in order, a sentinel-prefixed line replaces the held list by its
decoded manifest (empty on decode failure).  Used to characterize the
`foldl` of `demux`. -/
def lastManifest (decode : String → Option (List Plot)) :
    List Plot → List String → List Plot
  | ps, [] => ps
  | ps, l :: rest =>
    if pyStartsWith marker l then
      lastManifest decode ((decode ⟨l.data.drop marker.data.length⟩).getD []) rest
    else lastManifest decode ps rest

/-- Line 275: `f"plot_{uuid.uuid4().hex}.png"` for the plot at index `i`. -/
def plotFilename (w : World) (i : Nat) : String :=
  "plot_" ++ w.uuidHex i ++ ".png"

/-- Lines 268-300, one iteration: returns (plot afterwards, URL appended to
`image_urls` if any, filename written to disk if any).  Only plots with
`type == 'base64'` and truthy `data` are attempted; a successful write in
the publicly served directory sets `url` and deletes `data`; a successful
write elsewhere leaves the entry untouched; a failed write (exception
anywhere in the `try` body) leaves the entry untouched. -/
def persistOne (w : World) (isPublic : Bool) (i : Nat) (p : Plot) :
    Plot × Option String × Option String :=
  if p.type == some ("base64") && truthy p.data then
    if w.writeOk i then
      let fn := plotFilename w i
      if isPublic then
        let url := rstripSlash w.baseUrl ++ "/temp/plot/" ++ fn
        ({ p with url := some url, data := none }, some url, some fn)
      else (p, none, some fn)
    else (p, none, none)
  else (p, none, none)

/-- The `for i, p in enumerate(plots)` loop of lines 268-300, starting at
index `i`. -/
def persistList (w : World) (isPublic : Bool) :
    Nat → List Plot → List (Plot × Option String × Option String)
  | _, [] => []
  | i, p :: rest => persistOne w isPublic i p :: persistList w isPublic (i + 1) rest

/-- Lines 246-300: returns (plot list afterwards, `image_urls`,
`save_images` flag afterwards, filenames written to disk).  Skipped
entirely unless `save_images` and the plot list is non-empty; an unready
directory flips `save_images` off and leaves everything inline; otherwise
the directory is compared path-normalized against the designated public
plot directory and each plot is processed in order. -/
def persist (w : World) (saveImages : Bool) (imagePath : String)
    (plots : List Plot) : List Plot × List String × Bool × List String :=
  if saveImages && !plots.isEmpty then
    if !w.dirReady then (plots, [], false, [])
    else
      let isPublic := w.normalizePath imagePath == w.normalizePath w.publicPlotDir
      let out := persistList w isPublic 0 plots
      (out.map (·.1), out.filterMap (·.2.1), saveImages, out.filterMap (·.2.2))
  else (plots, [], saveImages, [])

/-- Spec-side description of the files the persister writes when the
directory is ready: one uniquely named file per plot of type `'base64'`
with a truthy payload whose per-plot write succeeds, in discovery order,
whether or not the directory is the public one. -/
def expectedWrites (w : World) : Nat → List Plot → List String
  | _, [] => []
  | i, p :: rest =>
    if p.type == some ("base64") && truthy p.data && w.writeOk i then
      plotFilename w i :: expectedWrites w (i + 1) rest
    else expectedWrites w (i + 1) rest

/-- Line 316: `title = p.get('title') or f'Plot {i}'`. -/
def mdTitle (idx : Nat) (p : Plot) : String :=
  if truthy p.title then p.title.getD ("") else "Plot " ++ toString idx

/-- Lines 315-330, one figure subsection: the markdown part emitted for the
plot at (1-based) position `idx`, and the plot with its `markdown` key
set.  A truthy `url` is embedded; else an inline payload is embedded only
when `save_images` is false at this point; else a literal placeholder. -/
def mdForPlot (saveImages : Bool) (idx : Nat) (p : Plot) : String × Plot :=
  let title := mdTitle idx p
  if truthy p.url then
    let md := "![" ++ title ++ "](" ++ p.url.getD ("") ++ ")"
    ("#### " ++ title ++ "\n\n" ++ md, { p with markdown := some md })
  else if !saveImages && p.type == some ("base64") && truthy p.data then
    let md := "![" ++ title ++ "](" ++ p.data.getD ("") ++ ")"
    ("#### " ++ title ++ "\n\n" ++ md, { p with markdown := some md })
  else
    ("#### " ++ title ++ "\n\n(Image not available)",
     { p with markdown := some ("(Image not available)") })

/-- The `for i, p in enumerate(plots, start=1)` loop of lines 315-330. -/
def mdPlots (saveImages : Bool) : Nat → List Plot → List String × List Plot
  | _, [] => ([], [])
  | i, p :: rest =>
    let hd := mdForPlot saveImages i p
    let tl := mdPlots saveImages (i + 1) rest
    (hd.1 :: tl.1, hd.2 :: tl.2)

/-- Lines 302-331: the rendered markdown document and the plot list with
`markdown` keys filled in. -/
def composeMarkdown (saveImages : Bool) (stdoutText stderrText : String)
    (plots : List Plot) : String × List Plot :=
  let stdoutPart :=
    if !(pyStrip stdoutText).isEmpty then
      "#### Stdout\n\n```text\n" ++ pyRstrip stdoutText ++ "\n```"
    else
      "#### Stdout\n\n```text\n<no output>\n```"
  let parts1 := ["### Python Execution Result", stdoutPart]
  let parts2 :=
    if !(pyStrip stderrText).isEmpty then
      parts1 ++ ["#### Stderr (warnings/errors)\n\n```text\n" ++ pyRstrip stderrText ++ "\n```"]
    else parts1
  if !plots.isEmpty then
    let figs := mdPlots saveImages 1 plots
    (String.intercalate ("\n\n") (parts2 ++ ["### Figures"] ++ figs.1), figs.2)
  else
    (String.intercalate ("\n\n") parts2, plots)

/-- The dict returned at lines 340-355 (`plots` is the `clean_plots` copy
with the `data` key removed from every entry; `exitCode = none` models the
`None` returncode of a killed-but-unreaped child, the timeout sentinel). -/
structure RunPyResult where
  stdout : String
  stderr : String
  exitCode : Option Int
  plots : List Plot
  markdown : Option String
  plotsFound : Nat
  plotTypes : List String
  markerFound : Bool
  stdoutLength : Nat
  stderrLength : Nat
  imagesSaved : Nat
  imagePathDiag : Option String
deriving DecidableEq

/-- Observables of one invocation: the returned dict (`none` when an
exception — a spawn failure — propagates to the caller), whether
`os.unlink(tmp_path)` was reached, whether the temp file is gone
afterwards, the filenames written under the image directory, and the
parent/child environments of the spawn step. -/
structure RunPyTrace where
  result : Option RunPyResult
  unlinkAttempted : Bool
  tmpRemoved : Bool
  filesWritten : List String
  parentEnvAfter : String → Option String
  childEnvUsed : String → Option String

/-- Lines 74-355 of `run_python.py`: the whole tool body, as a function of
the request arguments and the external world. -/
def runPython (args : RunPyArgs) (w : World) : RunPyTrace :=
  let t := coerceTimeout args.timeoutSeconds
  let envs := setupEnv args.debug w.parentEnv
  if !w.spawnOk then
    -- `create_subprocess_exec` (line 204) raised: the exception propagates
    -- before the try/finally around `communicate`, so `os.unlink` never runs.
    { result := none, unlinkAttempted := false, tmpRemoved := false,
      filesWritten := [], parentEnvAfter := envs.1, childEnvUsed := envs.2 }
  else
    let stdoutText := if w.timedOut then "" else w.stdoutText
    let stderrText :=
      if w.timedOut then "Timed out after " ++ toString t ++ " seconds"
      else w.stderrText
    let exitCode : Option Int := if w.timedOut then none else some w.returncode
    let d := demux w.decodeJson stdoutText
    let pr := persist w args.saveImages args.imagePath d.plots
    let mdp :=
      if args.returnMarkdown then
        let c := composeMarkdown pr.2.2.1 d.stdout stderrText pr.1
        (some c.1, c.2)
      else (none, pr.1)
    let plots2 := mdp.2
    { result := some {
        stdout := d.stdout
        stderr := stderrText
        exitCode := exitCode
        plots := plots2.map (fun p => { p with data := none })
        markdown := mdp.1
        plotsFound := plots2.length
        plotTypes := if !plots2.isEmpty then plots2.map (fun p => p.type.getD ("unknown")) else []
        markerFound := d.markerFound
        stdoutLength := d.stdout.length
        stderrLength := stderrText.length
        imagesSaved := if pr.2.2.1 then pr.2.1.length else 0
        imagePathDiag := if pr.2.2.1 then some args.imagePath else none }
      unlinkAttempted := true
      tmpRemoved := w.unlinkOk
      filesWritten := pr.2.2.2
      parentEnvAfter := envs.1
      childEnvUsed := envs.2 }

/-! Concrete inputs used to exercise the theorems below on closed values. -/

/-- A sample inline plot as the collector epilogue emits it. -/
def plotA : Plot :=
  { type := some ("base64"), data := some ("data:image/png;base64,QUJD"), title := some ("T") }

/-- A sample decoder standing for `json.loads` on two known manifests. -/
def decodeTest : String → Option (List Plot) :=
  fun s =>
    if s = "[ok]" then some [plotA]
    else if s = "[]" then some []
    else none

/-- A sample parent environment. -/
def envPATH : String → Option String :=
  fun k => if k = "PATH" then some ("/bin") else none

/-- A sample world: spawn succeeds, no timeout, writable directory, every
write succeeds, identity path normalisation. -/
def baseWorld : World :=
  { spawnOk := true, timedOut := false, stdoutText := "", stderrText := "",
    returncode := 0, parentEnv := envPATH, decodeJson := decodeTest,
    dirReady := true, writeOk := fun _ => true,
    uuidHex := fun i => "cafe" ++ toString i, normalizePath := id,
    unlinkOk := true, baseUrl := "https://www.liverpoolcivicdata.com",
    publicPlotDir := "/app/temp/plot" }

/-- A sample plot already carrying an external reference. -/
def plotU : Plot :=
  { type := some ("base64"), data := some ("D"), title := some ("T"), url := some ("https://u") }

/-- A stdout text carrying two sentinel lines, the first with a manifest
that fails to decode, the second with one that decodes to `[plotA]`. -/
def tC2 : String := "a\n__MCP_PLOTS__=[bad]\n__MCP_PLOTS__=[ok]\nb"

/-- A stdout text where the sentinel token occurs only mid-line, with a
CRLF terminator and a trailing newline. -/
def tC9 : String := "mid __MCP_PLOTS__=x line\r\ntail\n"

/-! ## Helper lemmas -/

theorem isPrefixL_self_append (m ys : List Char) : isPrefixL m (m ++ ys) = true := by
  induction m with
  | nil => rfl
  | cons a as ih => simpa [isPrefixL] using ih

theorem containsL_nil_needle (hay : List Char) : containsL [] hay = true := by
  cases hay <;> simp [containsL, isPrefixL]

theorem containsL_middle (m pre post : List Char) :
    containsL m (pre ++ m ++ post) = true := by
  induction pre with
  | nil =>
    cases m with
    | nil => simpa using containsL_nil_needle post
    | cons a as =>
      have h := isPrefixL_self_append (a :: as) post
      simp only [List.cons_append] at h
      simp [containsL, h]
  | cons c cs ih =>
    have ih' : containsL m (cs ++ (m ++ post)) = true := by
      simpa [List.append_assoc] using ih
    simp [containsL, ih']

theorem pyContains_middle (m pre post : String) :
    pyContains m (pre ++ m ++ post) = true := by
  have hd : (pre ++ m ++ post).data = pre.data ++ m.data ++ post.data := by
    simp [String.data_append]
  simpa [pyContains, hd] using containsL_middle m.data pre.data post.data

theorem exists_of_isPrefixL (m : List Char) :
    ∀ xs, isPrefixL m xs = true → ∃ ys, xs = m ++ ys := by
  induction m with
  | nil => exact fun xs _ => ⟨xs, rfl⟩
  | cons a as ih =>
    intro xs h
    cases xs with
    | nil => simp [isPrefixL] at h
    | cons b bs =>
      simp only [isPrefixL, Bool.and_eq_true, decide_eq_true_eq] at h
      obtain ⟨rfl, h2⟩ := h
      obtain ⟨ys, rfl⟩ := ih bs h2
      exact ⟨ys, rfl⟩

set_option maxHeartbeats 1600000 in
/-- Every line produced by `splitlinesAux` is a contiguous substring of the
processed text (with the pending accumulator prepended). -/
theorem splitlinesAux_sub (l : String) (cs acc : List Char)
    (h : l ∈ splitlinesAux cs acc) :
    ∃ pre post, acc.reverse ++ cs = pre ++ l.data ++ post := by
  induction cs, acc using splitlinesAux.induct with
  | case1 acc ha =>
    simp [splitlinesAux, ha] at h
  | case2 acc ha =>
    rw [splitlinesAux, if_neg ha] at h
    rw [List.mem_singleton] at h
    subst h
    exact ⟨[], [], by simp⟩
  | case3 rest acc ih =>
    rw [splitlinesAux, List.mem_cons] at h
    rcases h with h | h
    · subst h
      exact ⟨[], '\r' :: '\n' :: rest, by simp⟩
    · obtain ⟨pre, post, hp⟩ := ih h
      refine ⟨acc.reverse ++ '\r' :: '\n' :: pre, post, ?_⟩
      simp only [List.reverse_nil, List.nil_append] at hp
      simp [hp, List.append_assoc]
  | case4 c rest acc hne hbr ih =>
    rw [splitlinesAux, if_pos hbr, List.mem_cons] at h
    rcases h with h | h
    · subst h
      exact ⟨[], c :: rest, by simp⟩
    · obtain ⟨pre, post, hp⟩ := ih h
      refine ⟨acc.reverse ++ c :: pre, post, ?_⟩
      simp only [List.reverse_nil, List.nil_append] at hp
      simp [hp, List.append_assoc]
    exact hne
  | case5 c rest acc hne hbr ih =>
    rw [splitlinesAux, if_neg hbr] at h
    obtain ⟨pre, post, hp⟩ := ih h
    refine ⟨pre, post, ?_⟩
    simpa [List.append_assoc] using hp
    exact hne

/-- If the sentinel token does not occur in the text, no split line starts
with it. -/
theorem no_sentinel_line (text : String) (h : pyContains marker text = false) :
    ∀ l ∈ pySplitlines text, pyStartsWith marker l = false := by
  intro l hl
  by_contra hp
  rw [Bool.not_eq_false] at hp
  obtain ⟨ys, hys⟩ := exists_of_isPrefixL marker.data l.data hp
  obtain ⟨pre, post, hsub⟩ := splitlinesAux_sub l text.data [] hl
  simp only [List.reverse_nil, List.nil_append] at hsub
  have hmid : text.data = pre ++ marker.data ++ (ys ++ post) := by
    rw [hsub, hys]
    simp [List.append_assoc]
  have hc : containsL marker.data text.data = true := by
    rw [hmid]; exact containsL_middle _ _ _
  rw [pyContains] at h
  rw [h] at hc
  exact Bool.false_ne_true hc

theorem foldl_demuxStep (decode : String → Option (List Plot)) (ls : List String) :
    ∀ ps acc, ls.foldl (demuxStep decode) (ps, acc) =
      (lastManifest decode ps ls, acc ++ ls.filter (fun l => !pyStartsWith marker l)) := by
  induction ls with
  | nil => intro ps acc; simp [lastManifest]
  | cons l rest ih =>
    intro ps acc
    by_cases h : pyStartsWith marker l = true
    · simp [demuxStep, lastManifest, h, ih]
    · have h' : pyStartsWith marker l = false := by simpa using h
      simp [demuxStep, lastManifest, h', ih]

theorem lastManifest_append (decode : String → Option (List Plot)) (xs ys : List String) :
    ∀ ps, lastManifest decode ps (xs ++ ys) =
      lastManifest decode (lastManifest decode ps xs) ys := by
  induction xs with
  | nil => intro ps; simp [lastManifest]
  | cons x rest ih =>
    intro ps
    by_cases h : pyStartsWith marker x = true <;>
      simp [lastManifest, h, ih]

/-- The held plot list after the scan is decided by the last
sentinel-prefixed line alone. -/
theorem lastManifest_eq (decode : String → Option (List Plot)) (ls : List String) :
    ∀ ps, lastManifest decode ps ls =
      (((ls.filter (fun l => pyStartsWith marker l)).getLast?).map
        (fun l => (decode ⟨l.data.drop marker.data.length⟩).getD [])).getD ps := by
  induction ls using List.reverseRecOn with
  | nil => intro ps; simp [lastManifest]
  | append_singleton xs x ih =>
    intro ps
    rw [lastManifest_append]
    by_cases h : pyStartsWith marker x = true
    · simp [lastManifest, h, List.filter_append, List.getLast?_concat]
    · have h' : pyStartsWith marker x = false := by simpa using h
      simp [lastManifest, h', List.filter_append, ih]

/-- The demultiplexer's plot output: the decoded manifest of the last
sentinel-prefixed line (empty list on decode failure), empty when no line
is sentinel-prefixed. -/
theorem demux_plots_eq (decode : String → Option (List Plot)) (text : String) :
    (demux decode text).plots =
      ((((pySplitlines text).filter (fun l => pyStartsWith marker l)).getLast?).map
        (fun l => (decode ⟨l.data.drop marker.data.length⟩).getD [])).getD [] := by
  by_cases h : pyContains marker text = true
  · simp [demux, h, foldl_demuxStep, lastManifest_eq]
  · have h' : pyContains marker text = false := by simpa using h
    have hnone : (pySplitlines text).filter (fun l => pyStartsWith marker l) = [] := by
      rw [List.filter_eq_nil_iff]
      intro l hl
      simp [no_sentinel_line text h' l hl]
    simp [demux, h', hnone]

/-- The demultiplexer's stdout output when the token occurs: the
non-sentinel lines, in order, rejoined with a newline. -/
theorem demux_stdout_found (decode : String → Option (List Plot)) (text : String)
    (h : pyContains marker text = true) :
    (demux decode text).stdout =
      String.intercalate ("\n") ((pySplitlines text).filter (fun l => !pyStartsWith marker l)) := by
  simp [demux, h, foldl_demuxStep]

/-! ## Claims -/

/-- C10: for every invocation, the child process environment is a copy of
the parent's environment with `MCP_RUN_PY_DEBUG` set to `"1"` exactly when
the debug flag is true and removed otherwise; every other key is read
unchanged from the parent, and the parent's own environment is never
mutated by the invocation. -/
theorem C10_child_environment (args : RunPyArgs) (w : World) :
    (runPython args w).childEnvUsed debugEnvKey =
      (if args.debug then some ("1") else none)
    ∧ (∀ k, k ≠ debugEnvKey → (runPython args w).childEnvUsed k = w.parentEnv k)
    ∧ (runPython args w).parentEnvAfter = w.parentEnv := by
  have hc : (runPython args w).childEnvUsed = childEnv args.debug w.parentEnv := by
    cases hw : w.spawnOk <;> simp [runPython, setupEnv, hw]
  have hp : (runPython args w).parentEnvAfter = w.parentEnv := by
    cases hw : w.spawnOk <;> simp [runPython, setupEnv, hw]
  refine ⟨?_, ?_, hp⟩
  · rw [hc]
    by_cases hd : args.debug <;> simp [childEnv, envSet, envPop, hd]
  · intro k hk
    rw [hc]
    by_cases hd : args.debug <;> simp [childEnv, envSet, envPop, hd, hk]

/-- Closed witness for C10 at a concrete invocation with the debug flag
set. -/
theorem C10_witness :
    (runPython { debug := true } baseWorld).childEnvUsed debugEnvKey = some ("1")
    ∧ (runPython { debug := true } baseWorld).childEnvUsed ("PATH") = some ("/bin")
    ∧ (runPython { debug := true } baseWorld).parentEnvAfter = envPATH := by
  have h := C10_child_environment { debug := true } baseWorld
  refine ⟨by simpa using h.1, ?_, h.2.2⟩
  simpa [baseWorld, envPATH] using h.2.1 ("PATH") (by decide)

/-- C1: a timed-out execution returns empty stdout, a stderr containing the
exact coerced timeout value, an empty plots list, and the `None` exit code
— the timeout sentinel, distinct from any integer exit code a script could
return. -/
theorem C1_timeout_result (args : RunPyArgs) (w : World)
    (hs : w.spawnOk = true) (ht : w.timedOut = true) :
    ∃ r, (runPython args w).result = some r ∧
      r.stdout = "" ∧
      pyContains (toString (coerceTimeout args.timeoutSeconds)) r.stderr = true ∧
      r.plots = [] ∧
      r.exitCode = none ∧ (∀ n : Int, r.exitCode ≠ some n) := by
  have hm : pyContains marker ("") = false := by decide
  have hd : demux w.decodeJson ("") = { stdout := "", plots := [], markerFound := false } := by
    simp [demux, hm]
  simp [runPython, hs, ht, hd, persist, composeMarkdown, pyContains_middle]
  by_cases hr : args.returnMarkdown = true <;> simp [hr]

/-- Closed witness for C1 at a concrete timed-out invocation. -/
theorem C1_witness :
    ({ baseWorld with timedOut := true } : World).spawnOk = true
    ∧ ({ baseWorld with timedOut := true } : World).timedOut = true
    ∧ ∃ r, (runPython { timeoutSeconds := 5 } { baseWorld with timedOut := true }).result = some r ∧
        r.stdout = "" ∧
        pyContains (toString (coerceTimeout ({ timeoutSeconds := 5 } : RunPyArgs).timeoutSeconds))
          r.stderr = true ∧
        r.plots = [] ∧ r.exitCode = none ∧ (∀ n : Int, r.exitCode ≠ some n) :=
  ⟨rfl, rfl,
    C1_timeout_result { timeoutSeconds := 5 } { baseWorld with timedOut := true } rfl rfl⟩

/-- C3: a normally exiting script whose stdout never contains the sentinel
token yields an empty plots list, a false marker-found diagnostic, and the
decoded stdout returned verbatim. -/
theorem C3_no_sentinel_verbatim (args : RunPyArgs) (w : World)
    (hs : w.spawnOk = true) (ht : w.timedOut = false)
    (hm : pyContains marker w.stdoutText = false) :
    ∃ r, (runPython args w).result = some r ∧
      r.plots = [] ∧ r.markerFound = false ∧ r.stdout = w.stdoutText := by
  have hd : demux w.decodeJson w.stdoutText =
      { stdout := w.stdoutText, plots := [], markerFound := false } := by
    simp [demux, hm]
  simp [runPython, hs, ht, hd, persist, composeMarkdown]
  by_cases hr : args.returnMarkdown = true <;> simp [hr]

/-- Closed witness for C3 on a concrete two-line stdout. -/
theorem C3_witness :
    pyContains marker ({ baseWorld with stdoutText := "hello\nworld" } : World).stdoutText = false
    ∧ ∃ r, (runPython {} { baseWorld with stdoutText := "hello\nworld" }).result = some r ∧
        r.plots = [] ∧ r.markerFound = false ∧
        r.stdout = ({ baseWorld with stdoutText := "hello\nworld" } : World).stdoutText :=
  ⟨by decide,
    C3_no_sentinel_verbatim {} { baseWorld with stdoutText := "hello\nworld" } rfl rfl (by decide)⟩

/-- C2: the demultiplexer scans the lines in order; the resulting artifact
list is decided by the last sentinel-prefixed line alone — its remainder's
decoded manifest on success, the empty list on decode failure, and the
empty list when no line is sentinel-prefixed — while user-visible stdout
consists of exactly the lines not beginning with the sentinel token, in
their original order (rejoined with a newline when the token occurs, the
raw text verbatim otherwise). -/
theorem C2_demultiplexer (decode : String → Option (List Plot)) (text : String) :
    (demux decode text).plots =
      ((((pySplitlines text).filter (fun l => pyStartsWith marker l)).getLast?).map
        (fun l => (decode ⟨l.data.drop marker.data.length⟩).getD [])).getD []
    ∧ (pyContains marker text = true →
        (demux decode text).stdout =
          String.intercalate ("\n")
            ((pySplitlines text).filter (fun l => !pyStartsWith marker l)))
    ∧ (pyContains marker text = false → (demux decode text).stdout = text) := by
  refine ⟨demux_plots_eq decode text, fun h => demux_stdout_found decode text h, fun h => ?_⟩
  simp [demux, h]

/-- Closed witness for C2: two sentinel lines, the first undecodable, the
second decodable — the last occurrence wins and the other lines survive in
order. -/
theorem C2_witness :
    (demux decodeTest tC2).plots = [plotA] ∧ (demux decodeTest tC2).stdout = "a\nb" := by
  have h := C2_demultiplexer decodeTest tC2
  exact ⟨h.1.trans (by decide), (h.2.1 (by decide)).trans (by decide)⟩

/-- C9: the marker-found flag tests substring containment over the whole
stdout text, not line prefixes; when the token occurs only mid-line the
flag is true, the plot list stays empty and every line survives — but
stdout is rebuilt by splitting and rejoining with a newline; when the
token is absent, stdout is returned exactly as decoded. -/
theorem C9_marker_containment (decode : String → Option (List Plot)) (text : String) :
    (demux decode text).markerFound = pyContains marker text
    ∧ (pyContains marker text = true →
        (∀ l ∈ pySplitlines text, pyStartsWith marker l = false) →
        (demux decode text).plots = [] ∧
        (demux decode text).stdout = String.intercalate ("\n") (pySplitlines text))
    ∧ (pyContains marker text = false → (demux decode text).stdout = text) := by
  refine ⟨?_, fun hc hno => ⟨?_, ?_⟩, fun hc => by simp [demux, hc]⟩
  · by_cases h : pyContains marker text = true <;> simp [demux, h]
  · rw [demux_plots_eq]
    have hnil : (pySplitlines text).filter (fun l => pyStartsWith marker l) = [] := by
      rw [List.filter_eq_nil_iff]
      intro l hl
      simp [hno l hl]
    simp [hnil]
  · rw [demux_stdout_found decode text hc]
    have hall : (pySplitlines text).filter (fun l => !pyStartsWith marker l) = pySplitlines text := by
      rw [List.filter_eq_self]
      intro l hl
      simp [hno l hl]
    rw [hall]

/-- Closed witness for C9: the token occurs only mid-line, with a CRLF
terminator and a trailing newline in the raw text. -/
theorem C9_witness :
    (demux decodeTest tC9).markerFound = true
    ∧ (demux decodeTest tC9).plots = []
    ∧ (demux decodeTest tC9).stdout = "mid __MCP_PLOTS__=x line\ntail" := by
  have h := C9_marker_containment decodeTest tC9
  refine ⟨h.1.trans (by decide), (h.2.1 (by decide) (by decide)).1, ?_⟩
  exact ((h.2.1 (by decide) (by decide)).2).trans (by decide)

/-- Every artifact in the returned dict has its payload field removed (the
`clean_plots` copy of lines 333-338). -/
theorem result_plots_data_none (args : RunPyArgs) (w : World) (r : RunPyResult)
    (hr : (runPython args w).result = some r) : ∀ q ∈ r.plots, q.data = none := by
  by_cases hsp : w.spawnOk = true
  · simp [runPython, hsp] at hr
    subst hr
    intro q hq
    simp only [List.mem_map] at hq
    obtain ⟨p0, _, rfl⟩ := hq
    rfl
  · simp [runPython, hsp] at hr

/-- Index-wise view of the persister loop. -/
theorem persistList_getElem (w : World) (isPublic : Bool) (ps : List Plot) :
    ∀ i j, (persistList w isPublic j ps)[i]? =
      (ps[i]?).map (fun p => persistOne w isPublic (j + i) p) := by
  induction ps with
  | nil => intro i j; simp [persistList]
  | cons p rest ih =>
    intro i j
    cases i with
    | zero => simp [persistList]
    | succ n =>
      have := ih n (j + 1)
      simp only [persistList, List.getElem?_cons_succ, this]
      have harith : j + 1 + n = j + (n + 1) := by omega
      rw [harith]

/-- The files the persister loop writes are exactly `expectedWrites`. -/
theorem persistList_written (w : World) (isPublic : Bool) (ps : List Plot) :
    ∀ j, (persistList w isPublic j ps).filterMap (fun x => x.2.2) =
      expectedWrites w j ps := by
  induction ps with
  | nil => intro j; simp [persistList, expectedWrites]
  | cons p rest ih =>
    intro j
    simp only [persistList, List.filterMap_cons, expectedWrites]
    by_cases h1 : (p.type == some ("base64") && truthy p.data) = true
    · by_cases h2 : w.writeOk j = true
      · by_cases h3 : isPublic = true
        · subst h3; simp [persistOne, h1, h2, ih]
        · have h3' : isPublic = false := by simpa using h3
          subst h3'; simp [persistOne, h1, h2, ih]
      · have h2' : w.writeOk j = false := by simpa using h2
        simp [persistOne, h1, h2', ih]
    · have h1' : (p.type == some ("base64") && truthy p.data) = false := by simpa using h1
      simp [persistOne, h1', ih]

/-- The URLs the persister loop records: one per written file when the
directory is the public one, none otherwise. -/
theorem persistList_urls (w : World) (isPublic : Bool) (ps : List Plot) :
    ∀ j, (persistList w isPublic j ps).filterMap (fun x => x.2.1) =
      (if isPublic then
        (expectedWrites w j ps).map (fun fn => rstripSlash w.baseUrl ++ "/temp/plot/" ++ fn)
       else []) := by
  induction ps with
  | nil => intro j; simp [persistList, expectedWrites]
  | cons p rest ih =>
    intro j
    simp only [persistList, List.filterMap_cons, expectedWrites]
    by_cases h3 : isPublic = true
    · subst h3
      by_cases h1 : (p.type == some ("base64") && truthy p.data) = true
      · by_cases h2 : w.writeOk j = true
        · simp [persistOne, h1, h2, ih, plotFilename]
        · have h2' : w.writeOk j = false := by simpa using h2
          simp [persistOne, h1, h2', ih]
      · have h1' : (p.type == some ("base64") && truthy p.data) = false := by simpa using h1
        simp [persistOne, h1', ih]
    · have h3' : isPublic = false := by simpa using h3
      subst h3'
      by_cases h1 : (p.type == some ("base64") && truthy p.data) = true
      · by_cases h2 : w.writeOk j = true
        · simp [persistOne, h1, h2, ih]
        · have h2' : w.writeOk j = false := by simpa using h2
          simp [persistOne, h1, h2', ih]
      · have h1' : (p.type == some ("base64") && truthy p.data) = false := by simpa using h1
        simp [persistOne, h1', ih]

/-- With the flag on and the directory ready, the persister leaves the flag
on. -/
theorem persist_flag_ready (w : World) (path : String) (ps : List Plot)
    (hdir : w.dirReady = true) : (persist w true path ps).2.2.1 = true := by
  unfold persist
  split_ifs <;> simp_all

/-- With the flag off the persister leaves it off. -/
theorem persist_flag_off (w : World) (path : String) (ps : List Plot) :
    (persist w false path ps).2.2.1 = false := by
  simp [persist]

/-- With the flag on but the directory not ready (and plots present) the
persister turns the flag off. -/
theorem persist_flag_dir_bad (w : World) (path : String) (ps : List Plot)
    (hdir : w.dirReady = false) (hne : ps ≠ []) :
    (persist w true path ps).2.2.1 = false := by
  unfold persist
  split_ifs <;> simp_all

/-- C4 counterexample: with persistence disabled, the artifact decoded from
the manifest holds an inline payload, yet the returned result's artifact
list carries no payload — `clean_plots` strips the `data` key from every
entry, so the returned entry does not keep its base64 payload. -/
theorem C4_counterexample :
    (demux decodeTest ("__MCP_PLOTS__=[ok]")).plots.map (fun p => p.data) =
      [some ("data:image/png;base64,QUJD")]
    ∧ ((runPython { saveImages := false }
          { baseWorld with stdoutText := "__MCP_PLOTS__=[ok]" }).result.map
        (fun r => r.plots.map (fun p => p.data))) = some [none] := by
  decide

/-- C4 (amended): an artifact that is not persisted to the public directory
— persistence disabled, directory unready, non-public directory, or its
write failed — remains inline and keeps its payload in the in-memory
artifact list the tool continues to work with; the returned result's
artifact list, however, strips the payload field from every artifact. -/
theorem C4_amended (w : World) (path : String) (plots : List Plot)
    (isPublic : Bool) (i : Nat) (p : Plot) :
    persist w false path plots = (plots, [], false, [])
    ∧ (w.dirReady = false → plots ≠ [] → persist w true path plots = (plots, [], false, []))
    ∧ ((isPublic = false ∨ w.writeOk i = false) → (persistOne w isPublic i p).1 = p)
    ∧ (∀ args w2, ∀ q ∈ ((runPython args w2).result.map (fun r => r.plots)).getD [],
        q.data = none) := by
  refine ⟨by simp [persist], ?_, ?_, ?_⟩
  · intro hd hne
    have hne' : plots.isEmpty = false := by
      cases plots
      · simp at hne
      · rfl
    simp [persist, hd, hne']
  · intro h
    unfold persistOne
    rcases h with hpub | hw
    · subst hpub
      split_ifs with h1 h2 h3 <;> first | rfl | exact absurd h3 (by simp)
    · split_ifs with h1 h2 h3 <;> first | rfl | exact absurd h2 (by simp [hw])
  · intro args w2 q hq
    cases hres : (runPython args w2).result with
    | none => rw [hres] at hq; simp at hq
    | some r =>
      rw [hres] at hq
      simp only [Option.map_some', Option.getD_some] at hq
      exact result_plots_data_none args w2 r hres q hq

/-- Closed witness for C4 (amended) at concrete inputs: a disabled
persister, an unready directory, a non-public write, and a concrete
returned artifact with no payload. -/
theorem C4_witness :
    persist { baseWorld with dirReady := false } false ("/x") [plotA] = ([plotA], [], false, [])
    ∧ persist { baseWorld with dirReady := false } true ("/x") [plotA] = ([plotA], [], false, [])
    ∧ (persistOne { baseWorld with dirReady := false } false 0 plotA).1 = plotA
    ∧ ({ type := some ("base64"), data := none, title := some ("T"), url := none,
          markdown := some ("(Image not available)") } : Plot).data = none := by
  have h := C4_amended { baseWorld with dirReady := false } ("/x") [plotA] false 0 plotA
  refine ⟨h.1, h.2.1 rfl (by decide), h.2.2.1 (Or.inl rfl), ?_⟩
  exact h.2.2.2 {} { baseWorld with stdoutText := "__MCP_PLOTS__=[ok]" }
    { type := some ("base64"), data := none, title := some ("T"), url := none,
      markdown := some ("(Image not available)") } (by decide)

/-- C5: an artifact successfully written while the resolved target
directory equals the public plot directory (path-normalized comparison)
transitions to external — its reference becomes
base-url (trailing slashes stripped) ++ "/temp/plot/" ++ filename and its
payload is discarded — and no artifact of the final result ever carries
both an external reference and an inline payload. -/
theorem C5_public_transition (w : World) (path : String) (plots : List Plot)
    (i : Nat) (p : Plot)
    (hpub : (w.normalizePath path == w.normalizePath w.publicPlotDir) = true)
    (hdir : w.dirReady = true)
    (hp : plots[i]? = some p)
    (htype : p.type = some ("base64")) (hdata : truthy p.data = true)
    (hw : w.writeOk i = true) :
    (persist w true path plots).1[i]? =
      some { p with
        url := some (rstripSlash w.baseUrl ++ "/temp/plot/" ++ plotFilename w i),
        data := none }
    ∧ (∀ args w2, ∀ q ∈ ((runPython args w2).result.map (fun r => r.plots)).getD [],
        ¬(truthy q.url = true ∧ truthy q.data = true)) := by
  constructor
  · have hne : plots.isEmpty = false := by
      cases plots
      · simp at hp
      · rfl
    have hlist := persistList_getElem w true plots i 0
    simp only [Nat.zero_add] at hlist
    simp [persist, hne, hdir, hpub, List.getElem?_map, hlist, hp, persistOne,
      htype, hdata, hw]
  · intro args w2 q hq
    cases hres : (runPython args w2).result with
    | none => rw [hres] at hq; simp at hq
    | some r =>
      rw [hres] at hq
      simp only [Option.map_some', Option.getD_some] at hq
      have hd := result_plots_data_none args w2 r hres q hq
      simp [hd, truthy]

/-- Closed witness for C5: one eligible plot written into the public
directory gains the URL and loses the payload; a concrete returned
artifact never has both fields. -/
theorem C5_witness :
    (persist baseWorld true ("/app/temp/plot") [plotA]).1[0]? =
      some { type := some ("base64"), data := none, title := some ("T"),
             url := some ("https://www.liverpoolcivicdata.com/temp/plot/plot_cafe0.png") }
    ∧ ¬(truthy ({ type := some ("base64"), data := none, title := some ("T"), url := none,
                  markdown := some ("(Image not available)") } : Plot).url = true
        ∧ truthy ({ type := some ("base64"), data := none, title := some ("T"), url := none,
                    markdown := some ("(Image not available)") } : Plot).data = true) := by
  have h := C5_public_transition baseWorld ("/app/temp/plot") [plotA] 0 plotA
    (by decide) rfl (by decide) rfl (by decide) rfl
  refine ⟨h.1.trans (by decide), ?_⟩
  exact h.2 {} { baseWorld with stdoutText := "__MCP_PLOTS__=[ok]" }
    { type := some ("base64"), data := none, title := some ("T"), url := none,
      markdown := some ("(Image not available)") } (by decide)


/-- C6 counterexample: with persistence enabled and a writable directory
that is not the publicly servable one, one artifact's file is written to
disk, yet the diagnostics' images-saved count reports 0 — it counts only
writes that received public URLs, not all successful writes. -/
theorem C6_counterexample :
    (runPython { imagePath := "/not/public" }
      { baseWorld with stdoutText := "__MCP_PLOTS__=[ok]" }).filesWritten.length = 1
    ∧ ((runPython { imagePath := "/not/public" }
        { baseWorld with stdoutText := "__MCP_PLOTS__=[ok]" }).result.map
          (fun r => r.imagesSaved)) = some 0 := by
  decide

/-- C6 (amended): with persistence enabled and the directory ready, the
persister writes one uniquely named file per inline artifact whose write
succeeds (also when the directory is not the public one), while the
diagnostics' images-saved count equals the number of artifacts that
received public URLs — the full written count when the directory is the
public one and 0 otherwise. -/
theorem C6_amended (w : World) (path : String) (plots : List Plot)
    (hdir : w.dirReady = true) :
    (persist w true path plots).2.2.2 = expectedWrites w 0 plots
    ∧ (persist w true path plots).2.1.length =
        (if (w.normalizePath path == w.normalizePath w.publicPlotDir) = true
         then (expectedWrites w 0 plots).length else 0)
    ∧ (∀ args w2, args.saveImages = true → w2.dirReady = true → w2.spawnOk = true →
        ((runPython args w2).result.map (fun r => r.imagesSaved)) =
          some (persist w2 true args.imagePath
            (demux w2.decodeJson (if w2.timedOut then "" else w2.stdoutText)).plots).2.1.length
        ∧ (runPython args w2).filesWritten =
            (persist w2 true args.imagePath
              (demux w2.decodeJson (if w2.timedOut then "" else w2.stdoutText)).plots).2.2.2) := by
  refine ⟨?_, ?_, ?_⟩
  · by_cases hne : plots.isEmpty = true
    · have hpl : plots = [] := by
        cases plots
        · rfl
        · simp at hne
      subst hpl
      simp [persist, expectedWrites]
    · have hne' : plots.isEmpty = false := by simpa using hne
      simp [persist, hne', hdir, persistList_written]
  · by_cases hne : plots.isEmpty = true
    · have hpl : plots = [] := by
        cases plots
        · rfl
        · simp at hne
      subst hpl
      simp [persist, expectedWrites]
    · have hne' : plots.isEmpty = false := by simpa using hne
      by_cases hpub : (w.normalizePath path == w.normalizePath w.publicPlotDir) = true <;>
        simp [persist, hne', hdir, persistList_urls, hpub]
  · intro args w2 hsave hdir2 hsp
    have hflag := persist_flag_ready w2 args.imagePath
      (demux w2.decodeJson (if w2.timedOut then "" else w2.stdoutText)).plots hdir2
    constructor
    · simp [runPython, hsp, hsave, hflag]
    · simp [runPython, hsp, hsave]

/-- Closed witness for C6 (amended) on one eligible plot and a non-public
writable directory. -/
theorem C6_witness :
    (persist baseWorld true ("/not/public") [plotA]).2.2.2 = ["plot_cafe0.png"]
    ∧ (persist baseWorld true ("/not/public") [plotA]).2.1.length = 0
    ∧ ((runPython { imagePath := "/not/public" }
        { baseWorld with stdoutText := "__MCP_PLOTS__=[ok]" }).result.map
          (fun r => r.imagesSaved)) = some 0 := by
  have h := C6_amended baseWorld ("/not/public") [plotA] rfl
  have h3 := h.2.2 { imagePath := "/not/public" }
    { baseWorld with stdoutText := "__MCP_PLOTS__=[ok]" } rfl rfl rfl
  exact ⟨h.1.trans (by decide), (h.2.1).trans (by decide), h3.1.trans (by decide)⟩

/-- C7 counterexample: when spawning the child process fails, the
invocation aborts before the cleanup scope and the temporary script file
removal is never attempted, contradicting removal on every exit path. -/
theorem C7_counterexample :
    ({ baseWorld with spawnOk := false } : World).spawnOk = false
    ∧ (runPython {} { baseWorld with spawnOk := false }).unlinkAttempted = false := by
  decide

/-- C7 (amended): the temporary script file removal is attempted exactly on
the exit paths reached after the child is spawned — normal completion,
timeout, any failure during communication — and a failed removal does not
change the returned result; a failure to spawn propagates before the
try/finally block and leaks the file. -/
theorem C7_amended (args : RunPyArgs) (w : World) :
    (runPython args w).unlinkAttempted = w.spawnOk
    ∧ (runPython args w).tmpRemoved = (w.spawnOk && w.unlinkOk)
    ∧ (runPython args w).result.isSome = w.spawnOk := by
  refine ⟨?_, ?_, ?_⟩ <;> cases hsp : w.spawnOk <;> simp [runPython, hsp]

/-- C8 counterexample: persistence was requested but the directory was
unwritable — a failure, not a deliberate skip — yet the rendered document
embeds the artifact's inline payload instead of the claimed
not-available placeholder. -/
theorem C8_counterexample :
    ((runPython { imagePath := "/unwritable" }
      { baseWorld with dirReady := false, stdoutText := "__MCP_PLOTS__=[ok]" }).result.map
        (fun r => r.plots.map (fun p => p.markdown))) =
      some [some ("![T](data:image/png;base64,QUJD)")] := by
  decide

/-- C8 (amended): the rendered document embeds the external reference when
one exists; otherwise it embeds the inline payload exactly when the save
flag is off at rendering time — off because the caller disabled saving or
because the directory was unwritable — and in every other case (notably
when saving stayed enabled but that artifact's own write failed) it shows
the literal not-available placeholder. -/
theorem C8_amended (s : Bool) (i : Nat) (p : Plot) (w : World) (path : String)
    (plots : List Plot) :
    (truthy p.url = true →
      (mdForPlot s i p).2.markdown = some ("![" ++ mdTitle i p ++ "](" ++ p.url.getD ("") ++ ")"))
    ∧ (truthy p.url = false → s = false → (p.type == some ("base64")) = true →
        truthy p.data = true →
        (mdForPlot s i p).2.markdown = some ("![" ++ mdTitle i p ++ "](" ++ p.data.getD ("") ++ ")"))
    ∧ (truthy p.url = false →
        (s = true ∨ (p.type == some ("base64")) = false ∨ truthy p.data = false) →
        (mdForPlot s i p).2.markdown = some ("(Image not available)"))
    ∧ (persist w false path plots).2.2.1 = false
    ∧ (plots ≠ [] → w.dirReady = false → (persist w true path plots).2.2.1 = false) := by
  refine ⟨?_, ?_, ?_, persist_flag_off w path plots, ?_⟩
  · intro hu
    simp [mdForPlot, hu]
  · intro hu hs ht hd
    subst hs
    simp [mdForPlot, hu, ht, hd]
  · intro hu hcase
    rcases hcase with hs | ht | hd
    · subst hs
      simp [mdForPlot, hu]
    · simp [mdForPlot, hu, ht]
    · simp [mdForPlot, hu, hd]
  · intro hne hd
    exact persist_flag_dir_bad w path plots hd hne

/-- Closed witness for C8 (amended): a plot with a URL embeds the URL, an
inline plot with the flag off embeds the payload, an inline plot with the
flag on gets the placeholder, and an unready directory turns the flag
off. -/
theorem C8_witness :
    (mdForPlot true 1 plotU).2.markdown = some ("![T](https://u)")
    ∧ (mdForPlot false 1 plotA).2.markdown = some ("![T](data:image/png;base64,QUJD)")
    ∧ (mdForPlot true 1 plotA).2.markdown = some ("(Image not available)")
    ∧ (persist { baseWorld with dirReady := false } true ("/x") [plotA]).2.2.1 = false := by
  have h1 := C8_amended true 1 plotU baseWorld ("/x") [plotA]
  have h2 := C8_amended false 1 plotA baseWorld ("/x") [plotA]
  have h3 := C8_amended true 1 plotA { baseWorld with dirReady := false } ("/x") [plotA]
  refine ⟨(h1.1 (by decide)).trans (by decide), ?_, ?_, ?_⟩
  · exact (h2.2.1 (by decide) rfl (by decide) (by decide)).trans (by decide)
  · exact (h3.2.2.1 (by decide) (Or.inl rfl)).trans (by decide)
  · exact h3.2.2.2.2 (by decide) rfl

end RunPy
